import Mathlib

/-!
Shallow embedding of the multi-timeframe candlestick-pattern signal
aggregator (`xauusd_candles_modes.py`): candle geometry, the seven
pattern detectors, the per-timeframe analyzer and the cross-timeframe
aggregator, with exact rational arithmetic in place of Python floats.
-/

namespace XAU

/-- One OHLC bar; the analyzer logic never reads the timestamp, so it is
omitted from the embedding. -/
structure Candle where
  Open : ℚ
  High : ℚ
  Low : ℚ
  Close : ℚ
deriving DecidableEq, Repr

/-- Derived geometric features of a candle, as computed by
`candle_components`. -/
structure Components where
  open_ : ℚ
  high : ℚ
  low : ℚ
  close : ℚ
  body : ℚ
  upper : ℚ
  lower : ℚ
  range : ℚ
deriving DecidableEq, Repr

def DOJI_PCT : ℚ := 0.1

def HAMMER_BODY_MAX : ℚ := 0.35

def SHADOW_RATIO : ℚ := 2.0

def TF_WEIGHTS : List (String × ℚ) := [("M15", 0.8), ("H1", 1.0), ("H4", 1.5), ("D1", 2.0)]

/-- `candle_components(row)`: body, shadows and range of one bar; a zero
range is replaced by the literal `1e-9` used in the source. -/
def candle_components (c : Candle) : Components :=
  ⟨c.Open, c.High, c.Low, c.Close,
   |c.Close - c.Open|,
   c.High - max c.Close c.Open,
   min c.Close c.Open - c.Low,
   if c.High > c.Low then c.High - c.Low else 1e-9⟩

/-- `is_doji(row, pct)`: body at most `pct` of range. -/
def is_doji (c : Candle) (pct : ℚ) : Bool :=
  decide ((candle_components c).body ≤ pct * (candle_components c).range)

/-- `is_bullish_engulfing(prev_row, row)`. -/
def is_bullish_engulfing (prev : Option Candle) (c : Candle) : Bool :=
  match prev with
  | none => false
  | some p =>
      decide (p.Close < p.Open ∧ c.Close > c.Open) &&
      decide (min c.Open c.Close ≤ min p.Open p.Close ∧
              max c.Open c.Close ≥ max p.Open p.Close)

/-- `is_bearish_engulfing(prev_row, row)`. -/
def is_bearish_engulfing (prev : Option Candle) (c : Candle) : Bool :=
  match prev with
  | none => false
  | some p =>
      decide (p.Close > p.Open ∧ c.Close < c.Open) &&
      decide (min c.Open c.Close ≤ min p.Open p.Close ∧
              max c.Open c.Close ≥ max p.Open p.Close)

/-- `is_hammer(row)`: zero body is rejected first, then small body, long
lower shadow, short upper shadow. -/
def is_hammer (c : Candle) : Bool :=
  if (candle_components c).body = 0 then false
  else
    decide ((candle_components c).body / (candle_components c).range ≤ HAMMER_BODY_MAX) &&
    decide ((candle_components c).lower ≥ SHADOW_RATIO * (candle_components c).body) &&
    decide ((candle_components c).upper ≤ (candle_components c).body * 1.0)

/-- `is_shooting_star(row)`: mirror of the hammer. -/
def is_shooting_star (c : Candle) : Bool :=
  if (candle_components c).body = 0 then false
  else
    decide ((candle_components c).body / (candle_components c).range ≤ HAMMER_BODY_MAX) &&
    decide ((candle_components c).upper ≥ SHADOW_RATIO * (candle_components c).body) &&
    decide ((candle_components c).lower ≤ (candle_components c).body * 1.0)

/-- `is_morning_star(prev2, prev1, cur)`. -/
def is_morning_star (prev2 prev1 : Option Candle) (c : Candle) : Bool :=
  match prev2, prev1 with
  | some p2, some p1 =>
      decide (p2.Close < p2.Open) && is_doji p1 DOJI_PCT &&
      decide (c.Close > c.Open) && decide (c.Close > (p2.Open + p2.Close) / 2)
  | _, _ => false

/-- `is_evening_star(prev2, prev1, cur)`. -/
def is_evening_star (prev2 prev1 : Option Candle) (c : Candle) : Bool :=
  match prev2, prev1 with
  | some p2, some p1 =>
      decide (p2.Close > p2.Open) && is_doji p1 DOJI_PCT &&
      decide (c.Close < c.Open) && decide (c.Close < (p2.Open + p2.Close) / 2)
  | _, _ => false

end XAU

namespace XAU

/-- The per-timeframe analyzer result, `analyze_timeframe`'s return
value; the "no data" dictionary omits the last prices, modelled with
`none`. -/
structure TimeframeResult where
  patterns : List String
  signal : String
  score : ℚ
  explain : String
  last_close : Option ℚ
  last_open : Option ℚ
deriving DecidableEq, Repr

/-- Doji score adjustment of `analyze_timeframe`: `+2` after a bearish
previous candle, `-2` otherwise, and nothing without a previous candle. -/
def dojiAdj (prev : Option Candle) (c : Candle) : ℚ :=
  if is_doji c DOJI_PCT then
    match prev with
    | some p => if p.Close < p.Open then 2 else -2
    | none => 0
  else 0

def hammerTerm (c : Candle) : ℚ := if is_hammer c then 20 else 0

def shootTerm (c : Candle) : ℚ := if is_shooting_star c then -20 else 0

def bullEngTerm (prev : Option Candle) (c : Candle) : ℚ :=
  if is_bullish_engulfing prev c then 30 else 0

def bearEngTerm (prev : Option Candle) (c : Candle) : ℚ :=
  if is_bearish_engulfing prev c then -30 else 0

def msTerm (prev2 prev : Option Candle) (c : Candle) : ℚ :=
  if is_morning_star prev2 prev c then 35 else 0

def esTerm (prev2 prev : Option Candle) (c : Candle) : ℚ :=
  if is_evening_star prev2 prev c then -35 else 0

/-- Sum of the non-doji score contributions of `analyze_timeframe`. -/
def nonDojiScore (cur : Candle) (prev prev2 : Option Candle) : ℚ :=
  hammerTerm cur + shootTerm cur + bullEngTerm prev cur + bearEngTerm prev cur +
    msTerm prev2 prev cur + esTerm prev2 prev cur

/-- The accumulated `signal_score` of `analyze_timeframe`. -/
def scoreOf (cur : Candle) (prev prev2 : Option Candle) : ℚ :=
  dojiAdj prev cur + nonDojiScore cur prev prev2

/-- The pattern-name list accumulated by `analyze_timeframe`, in source
order (timestamps omitted). -/
def patternsOf (cur : Candle) (prev prev2 : Option Candle) : List String :=
  (if is_doji cur DOJI_PCT then ["Doji"] else []) ++
  (if is_hammer cur then ["Hammer"] else []) ++
  (if is_shooting_star cur then ["Shooting Star"] else []) ++
  (if is_bullish_engulfing prev cur then ["Bullish Engulfing"] else []) ++
  (if is_bearish_engulfing prev cur then ["Bearish Engulfing"] else []) ++
  (if is_morning_star prev2 prev cur then ["Morning Star"] else []) ++
  (if is_evening_star prev2 prev cur then ["Evening Star"] else [])

/-- Score-to-signal thresholds of `analyze_timeframe`. -/
def sigOfScore (s : ℚ) : String :=
  if s ≥ 25 then "BUY" else if s ≤ -25 then "SELL" else "HOLD"

/-- The `"no data"` dictionary returned for a missing or empty series. -/
def noDataResult : TimeframeResult := ⟨[], "HOLD", 0, "no data", none, none⟩

/-- The main branch of `analyze_timeframe`, once the current candle and
its up to two predecessors are extracted. -/
def analyzeCore (cur : Candle) (prev prev2 : Option Candle) : TimeframeResult :=
  ⟨patternsOf cur prev prev2, sigOfScore (scoreOf cur prev prev2),
   scoreOf cur prev prev2, "score=" ++ toString (scoreOf cur prev prev2),
   some cur.Close, some cur.Open⟩

/-- `df.tail(50)` read back to front: the trailing 50-candle window,
most recent candle first. -/
def lastWindow (l : List Candle) : List Candle :=
  (l.drop (l.length - 50)).reverse

/-- `analyze_timeframe(df)`: `None` and the empty frame give the
"no data" result; otherwise the detectors run on the last candle of the
trailing window with its up to two predecessors. -/
def analyze_timeframe (df : Option (List Candle)) : TimeframeResult :=
  match df with
  | none => noDataResult
  | some l =>
      match lastWindow l with
      | [] => noDataResult
      | cur :: rest => analyzeCore cur rest.head? rest.tail.head?

/-- One timeframe's entry in the aggregate `details` dictionary. -/
structure AggDetail where
  pattern_signal : String
  score : ℚ
  contribution : ℚ
  patterns : List String
deriving DecidableEq, Repr

/-- The final decision returned by `aggregate_signals`; the zero-weight
early return carries no `avg` key, modelled with `none`. -/
structure AggregateDecision where
  signal : String
  confidence : ℤ
  avg : Option ℚ
  details : List (String × AggDetail)
deriving DecidableEq, Repr

/-- Signal polarity used by `aggregate_signals`. -/
def polarityOf (signal : String) : ℚ :=
  if signal = "BUY" then 1 else if signal = "SELL" then -1 else 0

/-- `weights.get(tf, 1.0)`. -/
def entryWeight (weights : List (String × ℚ)) (tf : String) : ℚ :=
  (weights.lookup tf).getD 1

/-- One timeframe's weighted contribution inside `aggregate_signals`. -/
def contributionOf (weights : List (String × ℚ)) (tf : String) (res : TimeframeResult) : ℚ :=
  polarityOf res.signal * (min 100 |res.score| / 100) * entryWeight weights tf

/-- The accumulated `total` of the `aggregate_signals` loop. -/
def aggTotal (weights : List (String × ℚ)) (tf_results : List (String × TimeframeResult)) : ℚ :=
  (tf_results.map fun e => contributionOf weights e.1 e.2).sum

/-- The accumulated `weight_sum` of the `aggregate_signals` loop. -/
def aggWeightSum (weights : List (String × ℚ)) (tf_results : List (String × TimeframeResult)) : ℚ :=
  (tf_results.map fun e => entryWeight weights e.1).sum

/-- The accumulated `details` of the `aggregate_signals` loop. -/
def aggDetails (weights : List (String × ℚ)) (tf_results : List (String × TimeframeResult)) :
    List (String × AggDetail) :=
  tf_results.map fun e => (e.1, ⟨e.2.signal, e.2.score, contributionOf weights e.1 e.2, e.2.patterns⟩)

/-- Average-polarity-to-signal thresholds of `aggregate_signals`. -/
def finalSignalOf (avg : ℚ) : String :=
  if avg ≥ 0.25 then "BUY" else if avg ≤ -0.25 then "SELL" else "HOLD"

/-- Python `int(...)` on a rational: truncation toward zero. -/
def pyInt (q : ℚ) : ℤ := if 0 ≤ q then ⌊q⌋ else ⌈q⌉

/-- `aggregate_signals(tf_results, weights)`. -/
def aggregate_signals (tf_results : List (String × TimeframeResult))
    (weights : List (String × ℚ)) : AggregateDecision :=
  if aggWeightSum weights tf_results = 0 then
    ⟨"HOLD", 10, none, aggDetails weights tf_results⟩
  else
    ⟨finalSignalOf (aggTotal weights tf_results / aggWeightSum weights tf_results),
     pyInt (min 95 (max 10 (|aggTotal weights tf_results / aggWeightSum weights tf_results| * 100 + 10))),
     some (aggTotal weights tf_results / aggWeightSum weights tf_results),
     aggDetails weights tf_results⟩

end XAU

namespace XAU

theorem lastWindow_eq (l : List Candle) : lastWindow l = l.reverse.take 50 := by
  have h : l.drop (l.length - 50) = l.rtake 50 := rfl
  rw [lastWindow, h, List.rtake_eq_reverse_take_reverse, List.reverse_reverse]

theorem lastWindow_cons2 (cur prev : Candle) (rest : List Candle) :
    lastWindow ((cur :: prev :: rest).reverse) = cur :: prev :: rest.take 48 := by
  rw [lastWindow_eq, List.reverse_reverse, List.take_succ_cons, List.take_succ_cons]

theorem analyze_timeframe_some (l : List Candle) :
    analyze_timeframe (some l) =
      match lastWindow l with
      | [] => noDataResult
      | cur :: rest => analyzeCore cur rest.head? rest.tail.head? := rfl

/-- Any series ending in `prev, cur` is analyzed on `cur` with previous
candle `prev` and second-previous candle `rest.head?`. -/
theorem analyze_cons2 (cur prev : Candle) (rest : List Candle) :
    analyze_timeframe (some ((cur :: prev :: rest).reverse)) =
      analyzeCore cur (some prev) rest.head? := by
  have h : (rest.take 48).head? = rest.head? := by
    cases rest with
    | nil => rfl
    | cons a t => rfl
  rw [analyze_timeframe_some, lastWindow_cons2]
  simp only [List.head?_cons, List.tail_cons, h]

/-- C6: for every (previous, current) candle pair the bullish-engulfing
and bearish-engulfing detectors never both hold, since one requires a
bearish and the other a bullish previous candle. -/
theorem C6_engulfing_mutually_exclusive (prev : Option Candle) (cur : Candle) :
    (is_bullish_engulfing prev cur && is_bearish_engulfing prev cur) = false := by
  cases prev with
  | none => rfl
  | some p =>
    rcases lt_trichotomy p.Close p.Open with h | h | h
    · have hd : decide (p.Close > p.Open ∧ cur.Close < cur.Open) = false :=
        decide_eq_false fun hc => lt_asymm h hc.1
      have hb : is_bearish_engulfing (some p) cur = false := by
        rw [is_bearish_engulfing]
        simp [hd]
      rw [hb, Bool.and_false]
    · have hd : decide (p.Close < p.Open ∧ cur.Close > cur.Open) = false :=
        decide_eq_false fun hc => absurd hc.1 (by rw [h]; exact lt_irrefl _)
      have hb : is_bullish_engulfing (some p) cur = false := by
        rw [is_bullish_engulfing]
        simp [hd]
      rw [hb, Bool.false_and]
    · have hd : decide (p.Close < p.Open ∧ cur.Close > cur.Open) = false :=
        decide_eq_false fun hc => lt_asymm h hc.1
      have hb : is_bullish_engulfing (some p) cur = false := by
        rw [is_bullish_engulfing]
        simp [hd]
      rw [hb, Bool.false_and]

/-- C7: a missing (`None`) or empty series yields exactly the defined
terminal result: signal HOLD, score 0, no patterns, explain "no data". -/
theorem C7_no_data_result :
    analyze_timeframe none = ⟨[], "HOLD", 0, "no data", none, none⟩ ∧
    analyze_timeframe (some []) = ⟨[], "HOLD", 0, "no data", none, none⟩ :=
  ⟨rfl, rfl⟩

/-- C8: on the empty input mapping the weight sum is zero and the
aggregator returns exactly signal HOLD with confidence 10 (and no avg,
empty details), for any weight table. -/
theorem C8_empty_aggregate (weights : List (String × ℚ)) :
    aggregate_signals [] weights = ⟨"HOLD", 10, none, []⟩ := by
  simp [aggregate_signals, aggWeightSum, aggDetails]

/-- C9: a single-candle series always yields signal HOLD: the score can
only be -20, 0 or +20, strictly inside the plus-minus 25 thresholds. -/
theorem C9_single_candle_hold (c : Candle) :
    (analyze_timeframe (some [c])).signal = "HOLD" ∧
    ((analyze_timeframe (some [c])).score = -20 ∨ (analyze_timeframe (some [c])).score = 0 ∨
      (analyze_timeframe (some [c])).score = 20) := by
  have h : analyze_timeframe (some [c]) = analyzeCore c none none := rfl
  have hscore : scoreOf c none none = hammerTerm c + shootTerm c := by
    have h1 : dojiAdj none c = 0 := by rw [dojiAdj]; split <;> rfl
    have h2 : bullEngTerm none c = 0 := rfl
    have h3 : bearEngTerm none c = 0 := rfl
    have h4 : msTerm none none c = 0 := rfl
    have h5 : esTerm none none c = 0 := rfl
    rw [scoreOf, nonDojiScore, h1, h2, h3, h4, h5]
    ring
  rw [h]
  constructor
  · show sigOfScore (scoreOf c none none) = "HOLD"
    rw [hscore, hammerTerm, shootTerm]
    split_ifs <;> norm_num [sigOfScore]
  · show scoreOf c none none = -20 ∨ scoreOf c none none = 0 ∨ scoreOf c none none = 20
    rw [hscore, hammerTerm, shootTerm]
    split_ifs <;> norm_num

/-- C10: a timeframe label absent from the weight table is aggregated
with default weight 1.0: it adds its contribution scaled by 1 to the
total and adds 1 to the weight denominator, instead of being skipped. -/
theorem C10_missing_weight_default (tf : String) (res : TimeframeResult)
    (rest : List (String × TimeframeResult)) (weights : List (String × ℚ))
    (h : weights.lookup tf = none) :
    aggTotal weights ((tf, res) :: rest) =
      polarityOf res.signal * (min 100 |res.score| / 100) * 1 + aggTotal weights rest ∧
    aggWeightSum weights ((tf, res) :: rest) = 1 + aggWeightSum weights rest := by
  constructor
  · simp [aggTotal, contributionOf, entryWeight, h]
  · simp [aggWeightSum, entryWeight, h]

def resUnknownTf : TimeframeResult := ⟨[], "BUY", 10, "", none, none⟩

theorem C10_missing_weight_default_witness :
    TF_WEIGHTS.lookup "M5" = none ∧
    (aggTotal TF_WEIGHTS [("M5", resUnknownTf)] =
      polarityOf resUnknownTf.signal * (min 100 |resUnknownTf.score| / 100) * 1 +
        aggTotal TF_WEIGHTS [] ∧
     aggWeightSum TF_WEIGHTS [("M5", resUnknownTf)] = 1 + aggWeightSum TF_WEIGHTS []) :=
  ⟨by simp [TF_WEIGHTS, List.lookup],
   C10_missing_weight_default "M5" resUnknownTf [] TF_WEIGHTS (by simp [TF_WEIGHTS, List.lookup])⟩

end XAU

namespace XAU

def resM15 : TimeframeResult := ⟨[], "BUY", 40, "", none, none⟩

def resH4 : TimeframeResult := ⟨[], "SELL", -50, "", none, none⟩

def twoTfInput : List (String × TimeframeResult) := [("M15", resM15), ("H4", resH4)]

/-- C1 counterexample: on the spec's own two-timeframe scenario
(M15 BUY score 40 weight 0.8, H4 SELL score -50 weight 1.5) the code's
`int(...)` truncation returns confidence 28, while the claimed rounding
formula gives 29 at the same avg = -43/230. -/
theorem C1_counterexample :
    (aggregate_signals twoTfInput TF_WEIGHTS).confidence = 28 ∧
    (aggregate_signals twoTfInput TF_WEIGHTS).avg = some ((-43 : ℚ) / 230) ∧
    round (min (95 : ℚ) (max 10 (|(-43 : ℚ) / 230| * 100 + 10))) = 29 := by
  refine ⟨?_, ?_, ?_⟩
  · simp [aggregate_signals, aggWeightSum, aggTotal, aggDetails, contributionOf, entryWeight,
      polarityOf, twoTfInput, resM15, resH4, TF_WEIGHTS, List.lookup, pyInt, finalSignalOf]
    norm_num [abs_of_nonneg, abs_of_nonpos]
  · simp [aggregate_signals, aggWeightSum, aggTotal, aggDetails, contributionOf, entryWeight,
      polarityOf, twoTfInput, resM15, resH4, TF_WEIGHTS, List.lookup, pyInt, finalSignalOf]
    norm_num [abs_of_nonneg, abs_of_nonpos]
  · rw [round_eq]
    norm_num [abs_of_nonpos]

/-- C1 amended: whenever the weight sum is nonzero, the confidence is
the floor (Python `int` truncation, the argument being nonnegative) of
clamp(|avg| * 100 + 10, 10, 95), not its rounding. -/
theorem C1_confidence_is_floor_of_clamp (tf_results : List (String × TimeframeResult))
    (weights : List (String × ℚ)) (h : aggWeightSum weights tf_results ≠ 0) :
    (aggregate_signals tf_results weights).confidence =
      ⌊min 95 (max 10
        (|aggTotal weights tf_results / aggWeightSum weights tf_results| * 100 + 10))⌋ := by
  unfold aggregate_signals
  rw [if_neg h]
  show pyInt _ = _
  have h0 : (0 : ℚ) ≤ min 95 (max 10
      (|aggTotal weights tf_results / aggWeightSum weights tf_results| * 100 + 10)) :=
    le_min (by norm_num) (le_trans (by norm_num) (le_max_left _ _))
  rw [pyInt, if_pos h0]

theorem twoTfInput_weight_sum_ne : aggWeightSum TF_WEIGHTS twoTfInput ≠ 0 := by
  simp [aggWeightSum, entryWeight, twoTfInput, resM15, resH4, TF_WEIGHTS, List.lookup]
  norm_num

theorem C1_confidence_is_floor_of_clamp_witness :
    aggWeightSum TF_WEIGHTS twoTfInput ≠ 0 ∧
    (aggregate_signals twoTfInput TF_WEIGHTS).confidence =
      ⌊min 95 (max 10
        (|aggTotal TF_WEIGHTS twoTfInput / aggWeightSum TF_WEIGHTS twoTfInput| * 100 + 10))⌋ :=
  ⟨twoTfInput_weight_sum_ne,
   C1_confidence_is_floor_of_clamp twoTfInput TF_WEIGHTS twoTfInput_weight_sum_ne⟩

def msP2 : Candle := ⟨100, 101, 99, 99.9⟩

def msP1 : Candle := ⟨100, 101, 99, 100.05⟩

def msCur : Candle := ⟨100, 102, 99.5, 101⟩

/-- C2 counterexample: the morning-star detector fires on a window whose
candle at position n-2 is itself a doji (body 0.1 of range 2, within the
0.10 threshold), so the claimed "non-doji body" requirement on that
candle is not checked by the code. -/
theorem C2_counterexample :
    is_morning_star (some msP2) (some msP1) msCur = true ∧ is_doji msP2 DOJI_PCT = true := by
  constructor
  · norm_num [is_morning_star, is_doji, candle_components, msP2, msP1, msCur, DOJI_PCT,
      abs_of_nonneg, abs_of_nonpos]
  · norm_num [is_doji, candle_components, msP2, DOJI_PCT, abs_of_nonneg, abs_of_nonpos]

/-- C2 amended: the morning-star detector fires iff candle n-2 is bearish
(close < open, with no non-doji requirement on its body), candle n-1 is
a doji at the 0.10 threshold, and candle n is bullish with close above
the midpoint of candle n-2's body; when it fires it contributes +35. -/
theorem C2_morning_star_iff (p2 p1 c : Candle) :
    (is_morning_star (some p2) (some p1) c = true ↔
      (p2.Close < p2.Open ∧ is_doji p1 DOJI_PCT = true ∧ c.Close > c.Open ∧
       c.Close > (p2.Open + p2.Close) / 2)) ∧
    (is_morning_star (some p2) (some p1) c = true → msTerm (some p2) (some p1) c = 35) := by
  constructor
  · rw [is_morning_star]
    simp [and_assoc]
  · intro h
    rw [msTerm, if_pos h]

theorem C2_morning_star_iff_witness :
    is_morning_star (some msP2) (some msP1) msCur = true ∧
    msTerm (some msP2) (some msP1) msCur = 35 :=
  ⟨by norm_num [is_morning_star, is_doji, candle_components, msP2, msP1, msCur, DOJI_PCT,
      abs_of_nonneg, abs_of_nonpos],
   (C2_morning_star_iff msP2 msP1 msCur).2
     (by norm_num [is_morning_star, is_doji, candle_components, msP2, msP1, msCur, DOJI_PCT,
        abs_of_nonneg, abs_of_nonpos])⟩

def zeroBodyC : Candle := ⟨10, 10, 9, 10⟩

/-- C3 counterexample: a candle with zero body, zero upper shadow and a
long lower shadow satisfies all three claimed hammer conditions, yet the
code's extra `body == 0` guard makes the detector return false. -/
theorem C3_counterexample :
    ((candle_components zeroBodyC).body / (candle_components zeroBodyC).range ≤
        HAMMER_BODY_MAX ∧
     (candle_components zeroBodyC).lower ≥ SHADOW_RATIO * (candle_components zeroBodyC).body ∧
     (candle_components zeroBodyC).upper ≤ (candle_components zeroBodyC).body) ∧
    is_hammer zeroBodyC = false := by
  norm_num [is_hammer, candle_components, zeroBodyC, HAMMER_BODY_MAX, SHADOW_RATIO,
    abs_of_nonneg, abs_of_nonpos]

/-- C3 amended: the hammer detector fires iff the body is nonzero AND
body/range is at most 0.35, the lower shadow is at least 2.0 times the
body and the upper shadow is at most the body; it contributes +20. -/
theorem C3_hammer_iff (c : Candle) :
    (is_hammer c = true ↔
      ((candle_components c).body ≠ 0 ∧
       (candle_components c).body / (candle_components c).range ≤ HAMMER_BODY_MAX ∧
       (candle_components c).lower ≥ SHADOW_RATIO * (candle_components c).body ∧
       (candle_components c).upper ≤ (candle_components c).body)) ∧
    (is_hammer c = true → hammerTerm c = 20) := by
  constructor
  · rw [is_hammer]
    have h10 : (candle_components c).body * 1.0 = (candle_components c).body := by norm_num
    split_ifs with h0
    · simp [h0]
    · rw [h10]
      simp [h0, and_assoc]
  · intro h
    rw [hammerTerm, if_pos h]

def hammerC : Candle := ⟨10, 10.1, 9, 10.05⟩

theorem C3_hammer_iff_witness :
    is_hammer hammerC = true ∧ hammerTerm hammerC = 20 :=
  ⟨by norm_num [is_hammer, candle_components, hammerC, HAMMER_BODY_MAX, SHADOW_RATIO,
      abs_of_nonneg, abs_of_nonpos],
   (C3_hammer_iff hammerC).2
     (by norm_num [is_hammer, candle_components, hammerC, HAMMER_BODY_MAX, SHADOW_RATIO,
        abs_of_nonneg, abs_of_nonpos])⟩

end XAU

namespace XAU

/-- C5: on a series of at least two candles whose last candle is a doji,
the analyzer's score is the sum of the other pattern contributions plus
exactly +2 when the preceding candle is bearish and exactly -2 when it
is bullish. -/
theorem C5_doji_adjustment (cur prev : Candle) (rest : List Candle)
    (hd : is_doji cur DOJI_PCT = true) :
    (prev.Close < prev.Open →
      (analyze_timeframe (some ((cur :: prev :: rest).reverse))).score =
        2 + nonDojiScore cur (some prev) rest.head?) ∧
    (prev.Close > prev.Open →
      (analyze_timeframe (some ((cur :: prev :: rest).reverse))).score =
        -2 + nonDojiScore cur (some prev) rest.head?) := by
  rw [analyze_cons2]
  constructor
  · intro hb
    show scoreOf cur (some prev) rest.head? = _
    rw [scoreOf, dojiAdj, if_pos hd, if_pos hb]
  · intro hb
    show scoreOf cur (some prev) rest.head? = _
    rw [scoreOf, dojiAdj, if_pos hd, if_neg (lt_asymm hb)]

def dojiC : Candle := ⟨100, 101, 99, 100.05⟩

def bearC : Candle := ⟨100, 101, 99, 99⟩

theorem C5_doji_adjustment_witness :
    is_doji dojiC DOJI_PCT = true ∧ bearC.Close < bearC.Open ∧
    (analyze_timeframe (some ((dojiC :: bearC :: ([] : List Candle)).reverse))).score =
      2 + nonDojiScore dojiC (some bearC) none :=
  ⟨by norm_num [is_doji, candle_components, dojiC, DOJI_PCT, abs_of_nonneg, abs_of_nonpos],
   by norm_num [bearC],
   (C5_doji_adjustment dojiC bearC []
     (by norm_num [is_doji, candle_components, dojiC, DOJI_PCT, abs_of_nonneg,
        abs_of_nonpos])).1 (by norm_num [bearC])⟩

end XAU

namespace XAU

def resHold20 : TimeframeResult := ⟨[], "HOLD", 20, "", none, none⟩

/-- C4 counterexample: a single analyzer-consistent HOLD result with
nonzero score 20 aggregates to avg = 0, not clamp(20,-100,100)/100 =
0.2, because a HOLD signal has polarity 0 regardless of its score. -/
theorem C4_counterexample :
    resHold20.signal = sigOfScore resHold20.score ∧
    0 < entryWeight TF_WEIGHTS "H1" ∧
    (aggregate_signals [("H1", resHold20)] TF_WEIGHTS).avg = some 0 ∧
    (0 : ℚ) ≠ max (-100) (min 100 resHold20.score) / 100 := by
  refine ⟨?_, ?_, ?_, ?_⟩
  · norm_num [resHold20, sigOfScore]
  · simp [entryWeight, TF_WEIGHTS, List.lookup]
    norm_num
  · simp [aggregate_signals, aggWeightSum, aggTotal, aggDetails, contributionOf, entryWeight,
      polarityOf, resHold20, TF_WEIGHTS, List.lookup, pyInt, finalSignalOf]
    norm_num
  · norm_num [resHold20]

/-- C4 amended: for a single-timeframe input with positive weight and a
signal consistent with the analyzer's score thresholds, avg equals
polarity(signal) * min(100,|score|)/100 (which equals
clamp(score,-100,100)/100 whenever the signal is not HOLD), and the
final signal equals the analyzer's signal. -/
theorem C4_single_timeframe (tf : String) (res : TimeframeResult)
    (weights : List (String × ℚ)) (hw : 0 < entryWeight weights tf)
    (hs : res.signal = sigOfScore res.score) :
    (aggregate_signals [(tf, res)] weights).avg =
      some (polarityOf res.signal * (min 100 |res.score| / 100)) ∧
    (aggregate_signals [(tf, res)] weights).signal = res.signal ∧
    (res.signal ≠ "HOLD" →
      (aggregate_signals [(tf, res)] weights).avg =
        some (max (-100) (min 100 res.score) / 100)) := by
  have hws : aggWeightSum weights [(tf, res)] = entryWeight weights tf := by
    simp [aggWeightSum]
  have htot : aggTotal weights [(tf, res)] =
      polarityOf res.signal * (min 100 |res.score| / 100) * entryWeight weights tf := by
    simp [aggTotal, contributionOf]
  have havg : aggTotal weights [(tf, res)] / aggWeightSum weights [(tf, res)] =
      polarityOf res.signal * (min 100 |res.score| / 100) := by
    rw [hws, htot, mul_div_assoc, div_self (ne_of_gt hw), mul_one]
  have hne : aggWeightSum weights [(tf, res)] ≠ 0 := by
    rw [hws]; exact ne_of_gt hw
  unfold aggregate_signals
  rw [if_neg hne, havg]
  refine ⟨rfl, ?_, ?_⟩
  · show finalSignalOf (polarityOf res.signal * (min 100 |res.score| / 100)) = res.signal
    rcases le_or_lt 25 res.score with h1 | h1
    · have hsig : sigOfScore res.score = "BUY" := by rw [sigOfScore, if_pos h1]
      rw [hs, hsig]
      have habs : |res.score| = res.score := abs_of_nonneg (by linarith)
      have hmin : (25 : ℚ) ≤ min 100 res.score := le_min (by norm_num) h1
      have hp : polarityOf "BUY" = 1 := by simp [polarityOf]
      rw [hp, one_mul, habs, finalSignalOf,
        if_pos (by linarith : min 100 res.score / 100 ≥ 0.25)]
    · rcases le_or_lt res.score (-25) with h2 | h2
      · have hsig : sigOfScore res.score = "SELL" := by
          rw [sigOfScore, if_neg (not_le.mpr h1), if_pos h2]
        rw [hs, hsig]
        have habs : |res.score| = -res.score := abs_of_nonpos (by linarith)
        have hmin : (25 : ℚ) ≤ min 100 (-res.score) := le_min (by norm_num) (by linarith)
        have hp : polarityOf "SELL" = -1 := by simp [polarityOf]
        rw [hp, habs, finalSignalOf,
          if_neg (not_le.mpr (by linarith : -1 * (min 100 (-res.score) / 100) < 0.25)),
          if_pos (by linarith : -1 * (min 100 (-res.score) / 100) ≤ -0.25)]
      · have hsig : sigOfScore res.score = "HOLD" := by
          rw [sigOfScore, if_neg (not_le.mpr h1), if_neg (not_le.mpr h2)]
        rw [hs, hsig]
        have hp : polarityOf "HOLD" = 0 := by simp [polarityOf]
        rw [hp, zero_mul, finalSignalOf]
        norm_num
  · intro hnh
    show some (polarityOf res.signal * (min 100 |res.score| / 100)) =
      some (max (-100) (min 100 res.score) / 100)
    rcases le_or_lt 25 res.score with h1 | h1
    · have hsig : sigOfScore res.score = "BUY" := by rw [sigOfScore, if_pos h1]
      have habs : |res.score| = res.score := abs_of_nonneg (by linarith)
      have hmin : (25 : ℚ) ≤ min 100 res.score := le_min (by norm_num) h1
      have hp : polarityOf res.signal = 1 := by rw [hs, hsig]; simp [polarityOf]
      have hmax : max (-100 : ℚ) (min 100 res.score) = min 100 res.score :=
        max_eq_right (by linarith)
      rw [hp, one_mul, habs, hmax]
    · rcases le_or_lt res.score (-25) with h2 | h2
      · have hsig : sigOfScore res.score = "SELL" := by
          rw [sigOfScore, if_neg (not_le.mpr h1), if_pos h2]
        have habs : |res.score| = -res.score := abs_of_nonpos (by linarith)
        have hp : polarityOf res.signal = -1 := by rw [hs, hsig]; simp [polarityOf]
        have hmin : min (100 : ℚ) res.score = res.score := min_eq_right (by linarith)
        rw [hp, habs, hmin]
        rcases le_or_lt (-100 : ℚ) res.score with h3 | h3
        · have hmax : max (-100 : ℚ) res.score = res.score := max_eq_right h3
          have hmin2 : min (100 : ℚ) (-res.score) = -res.score := min_eq_right (by linarith)
          rw [hmax, hmin2]
          ring_nf
        · have hmax : max (-100 : ℚ) res.score = -100 := max_eq_left (by linarith)
          have hmin2 : min (100 : ℚ) (-res.score) = 100 := min_eq_left (by linarith)
          rw [hmax, hmin2]
          norm_num
      · exact absurd (hs.trans (by rw [sigOfScore, if_neg (not_le.mpr h1),
          if_neg (not_le.mpr h2)])) hnh

def resBuy30 : TimeframeResult := ⟨[], "BUY", 30, "", none, none⟩

theorem C4_single_timeframe_witness :
    (0 < entryWeight TF_WEIGHTS "M15" ∧ resBuy30.signal = sigOfScore resBuy30.score) ∧
    ((aggregate_signals [("M15", resBuy30)] TF_WEIGHTS).avg =
      some (polarityOf resBuy30.signal * (min 100 |resBuy30.score| / 100)) ∧
     (aggregate_signals [("M15", resBuy30)] TF_WEIGHTS).signal = resBuy30.signal ∧
     (resBuy30.signal ≠ "HOLD" →
       (aggregate_signals [("M15", resBuy30)] TF_WEIGHTS).avg =
         some (max (-100) (min 100 resBuy30.score) / 100))) :=
  ⟨⟨by simp [entryWeight, TF_WEIGHTS, List.lookup]; norm_num, by norm_num [resBuy30, sigOfScore]⟩,
   C4_single_timeframe "M15" resBuy30 TF_WEIGHTS
     (by simp [entryWeight, TF_WEIGHTS, List.lookup]; norm_num) (by norm_num [resBuy30, sigOfScore])⟩

end XAU
